import Mathlib

/-!
Shallow embedding of `src/bidict/_util.py` (bidict utility module).

The module has three pure functions over "mapping-or-pairs" inputs:
* `_iteritems_mapping_or_iterable` (normalize-source),
* `_iteritems_args_kw` (combine-args-and-keywords),
* `inverted` (invert).

A Python argument is modelled by `PySource`: its underlying data is either
a mapping (whose `items()` view is a list of pairs) or an iterable of
pairs; `truthy` records the result of Python's `bool(arg)` (so that exotic
truthiness is representable — for standard containers it is non-emptiness);
`invAttr` records the state of the `__inverted__` attribute (absent,
present but not callable, or callable returning a fixed pair list).

Lazy iterators are modelled as the finite lists they produce; raising
`TypeError` is modelled with `Except String`.
-/

namespace Bidict

/-- The underlying iterable data of a mapping-or-pairs argument: either a
mapping with an ordered `items()` view, or an iterable of pairs. -/
inductive PyIterSource (K V : Type) where
  | mapping (items : List (K × V))
  | iterable (pairs : List (K × V))
deriving DecidableEq, Repr

/-- The state of the `__inverted__` attribute on an argument:
`getattr(arg, '__inverted__', None)` yields `None` (absent), a
non-callable value, or a zero-argument callable returning pairs. -/
inductive InvAttr (K V : Type) where
  | absent
  | notCallable
  | callable (result : List (V × K))
deriving DecidableEq, Repr

/-- Whether `callable(getattr(arg, '__inverted__', None))` holds. -/
def InvAttr.isCallable {K V : Type} : InvAttr K V → Bool
  | .callable _ => true
  | _ => false

/-- A Python value as passed to the util functions: its iterable data, its
truthiness under `bool(arg)`, and its `__inverted__` attribute state. -/
structure PySource (K V : Type) where
  data : PyIterSource K V
  truthy : Bool
  invAttr : InvAttr K V
deriving DecidableEq, Repr

variable {K V : Type}

/-- `_NULL_IT = repeat(None, 0)`: an iterator that is exhausted from the
start, i.e. the empty sequence. -/
def _NULL_IT : List (K × V) := []

/-- `_iteritems_mapping_or_iterable(arg)`: if `arg` is a Mapping, iterate
its items view; otherwise iterate `arg` itself. -/
def _iteritems_mapping_or_iterable : PyIterSource K V → List (K × V)
  | .mapping items => items
  | .iterable pairs => pairs

/-- `_iteritems_args_kw(*args, **kw)`: raise `TypeError` if more than one
positional argument is given; otherwise chain the normalized items of the
(truthy) positional argument with the items of `kw`. -/
def _iteritems_args_kw (args : List (PySource K V)) (kw : List (K × V)) :
    Except String (List (K × V)) :=
  let args_len := args.length
  if args_len > 1 then
    Except.error ("Expected at most 1 positional argument, got " ++ toString args_len)
  else
    let itemchain : Option (List (K × V)) :=
      match args with
      | [] => none
      | arg :: _ =>
          if arg.truthy then some (_iteritems_mapping_or_iterable arg.data) else none
    let itemchain2 : Option (List (K × V)) :=
      if kw.isEmpty then itemchain
      else
        match itemchain with
        | some ic => some (ic ++ kw)
        | none => some kw
    Except.ok (itemchain2.getD _NULL_IT)

/-- `inverted(arg)`: if `arg` has a callable `__inverted__` attribute,
return the result of calling it; otherwise iterate the normalized items of
`arg`, swapping each pair on the fly. -/
def inverted (arg : PySource K V) : List (V × K) :=
  match arg.invAttr with
  | .callable res => res
  | _ => (_iteritems_mapping_or_iterable arg.data).map (fun p => (p.2, p.1))

/-- A standard Python mapping (e.g. a dict) with the given items: truthy
iff non-empty, no `__inverted__` attribute. -/
def stdMapping (items : List (K × V)) : PySource K V :=
  ⟨.mapping items, !items.isEmpty, .absent⟩

/-- A standard Python sequence of pairs (e.g. a list of tuples): truthy
iff non-empty, no `__inverted__` attribute. -/
def listSource (pairs : List (K × V)) : PySource K V :=
  ⟨.iterable pairs, !pairs.isEmpty, .absent⟩

/-- Shared helper: with exactly one truthy positional argument, the result
is the normalized positional pairs followed by the keyword pairs. -/
theorem args_kw_one_truthy (arg : PySource K V) (kw : List (K × V))
    (ht : arg.truthy = true) :
    _iteritems_args_kw [arg] kw =
      Except.ok (_iteritems_mapping_or_iterable arg.data ++ kw) := by
  cases kw with
  | nil => simp [_iteritems_args_kw, ht, _NULL_IT]
  | cons p ps => simp [_iteritems_args_kw, ht]

/-- C1: `_iteritems_args_kw` raises an error if and only if more than one
positional argument is supplied, and in that case the whole call returns
the error (nothing of a sequence is produced) with a message stating the
actual number of positional arguments received. -/
theorem iteritems_args_kw_error_iff (args : List (PySource K V)) (kw : List (K × V)) :
    ((∃ e, _iteritems_args_kw args kw = Except.error e) ↔ 1 < args.length) ∧
      (1 < args.length →
        _iteritems_args_kw args kw =
          Except.error ("Expected at most 1 positional argument, got " ++
            toString args.length)) := by
  constructor
  · constructor
    · rintro ⟨e, he⟩
      by_contra hlen
      push_neg at hlen
      have : ¬ args.length > 1 := by omega
      simp [_iteritems_args_kw, this] at he
    · intro h
      refine ⟨"Expected at most 1 positional argument, got " ++ toString args.length, ?_⟩
      simp [_iteritems_args_kw, h]
  · intro h
    simp [_iteritems_args_kw, h]

/-- Witness for C1: two positional arguments give exactly the arity error
with the actual count in the message. -/
theorem iteritems_args_kw_error_iff_witness :
    _iteritems_args_kw [stdMapping [("a", (1 : Nat))], stdMapping [("b", 2)]]
        ([] : List (String × Nat)) =
      Except.error "Expected at most 1 positional argument, got 2" :=
  (iteritems_args_kw_error_iff _ _).2 (by decide)

/-- C2: `_iteritems_mapping_or_iterable` yields exactly the pairs of a
mapping's items view, in the same order, and yields a non-mapping iterable
itself, in order, unchanged. -/
theorem iteritems_mapping_or_iterable_spec (items pairs : List (K × V)) :
    _iteritems_mapping_or_iterable (.mapping items) = items ∧
      _iteritems_mapping_or_iterable (.iterable pairs) = pairs :=
  ⟨rfl, rfl⟩

/-- C3: when `arg` has no callable `__inverted__` attribute, `inverted`
yields the normalized pairs of `arg` with each pair swapped, preserving
source order. -/
theorem inverted_default (arg : PySource K V)
    (h : arg.invAttr.isCallable = false) :
    inverted arg =
      (_iteritems_mapping_or_iterable arg.data).map (fun p => (p.2, p.1)) := by
  unfold inverted
  cases harg : arg.invAttr with
  | absent => rfl
  | notCallable => rfl
  | callable res => rw [harg] at h; simp [InvAttr.isCallable] at h

/-- Witness for C3: inverting the dict `{'a': 1, 'b': 2}` (which has no
inversion hook) yields `[(1, 'a'), (2, 'b')]`. -/
theorem inverted_default_witness :
    inverted (stdMapping [("a", (1 : Nat)), ("b", 2)]) = [(1, "a"), (2, "b")] :=
  (inverted_default (stdMapping [("a", (1 : Nat)), ("b", 2)]) rfl).trans rfl

/-- C4: when `arg` has a callable `__inverted__` attribute, `inverted`
calls it with no arguments and returns its result directly, bypassing the
pair-swap logic. -/
theorem inverted_hook (arg : PySource K V) (res : List (V × K))
    (h : arg.invAttr = .callable res) :
    inverted arg = res := by
  simp [inverted, h]

/-- Witness for C4: an argument whose inversion hook returns `[(9, 'z')]`
is inverted to exactly `[(9, 'z')]`, even though its own items are
`[('a', 1)]` (so the default swap would have yielded `[(1, 'a')]`). -/
theorem inverted_hook_witness :
    inverted (⟨.mapping [("a", (1 : Nat))], true, .callable [(9, "z")]⟩ :
        PySource String Nat) =
      [(9, "z")] :=
  inverted_hook _ _ rfl

/-- C5: with a truthy positional argument and at least one keyword
argument, the output is the normalized positional pairs followed by the
keyword pairs, in that order. -/
theorem iteritems_args_kw_concat (arg : PySource K V) (kw : List (K × V))
    (ht : arg.truthy = true) (_hkw : kw ≠ []) :
    _iteritems_args_kw [arg] kw =
      Except.ok (_iteritems_mapping_or_iterable arg.data ++ kw) :=
  args_kw_one_truthy arg kw ht

/-- Witness for C5: `_iteritems_args_kw({'a': 1}, b=2)` yields
`[('a', 1), ('b', 2)]`. -/
theorem iteritems_args_kw_concat_witness :
    _iteritems_args_kw [stdMapping [("a", (1 : Nat))]] [("b", 2)] =
      Except.ok [("a", 1), ("b", 2)] :=
  (iteritems_args_kw_concat (stdMapping [("a", (1 : Nat))]) [("b", 2)] rfl
    (by decide)).trans rfl

/-- C6: a positional argument that is present but falsy is treated exactly
like an absent positional argument: it contributes no pairs and the output
is just the keyword pairs. -/
theorem iteritems_args_kw_falsy (arg : PySource K V) (kw : List (K × V))
    (hf : arg.truthy = false) :
    _iteritems_args_kw [arg] kw = _iteritems_args_kw [] kw ∧
      _iteritems_args_kw [arg] kw = Except.ok kw := by
  cases kw with
  | nil => exact ⟨by simp [_iteritems_args_kw, hf], by simp [_iteritems_args_kw, hf, _NULL_IT]⟩
  | cons p ps => exact ⟨by simp [_iteritems_args_kw, hf], by simp [_iteritems_args_kw, hf]⟩

/-- Witness for C6: an empty (hence falsy) positional dict with keyword
argument `b=2` behaves exactly like no positional argument at all. -/
theorem iteritems_args_kw_falsy_witness :
    _iteritems_args_kw [stdMapping ([] : List (String × Nat))] [("b", 2)] =
        _iteritems_args_kw [] [("b", 2)] ∧
      _iteritems_args_kw [stdMapping ([] : List (String × Nat))] [("b", 2)] =
        Except.ok [("b", 2)] :=
  iteritems_args_kw_falsy (stdMapping []) [("b", 2)] rfl

/-- C7: `_iteritems_args_kw` called with no positional and no keyword
arguments returns the empty sequence and does not raise. -/
theorem iteritems_args_kw_empty :
    _iteritems_args_kw ([] : List (PySource K V)) ([] : List (K × V)) =
      Except.ok [] :=
  rfl

/-- C8: for a finite mapping with unique values (and no inversion hook),
inverting twice via the default pair-swap path restores the original item
sequence in its original order. -/
theorem inverted_involutive (m : List (K × V))
    (_hnodup : (m.map Prod.snd).Nodup) :
    inverted (listSource (inverted (stdMapping m))) = m := by
  have hcomp : ((fun p : V × K => (p.2, p.1)) ∘ fun p : K × V => (p.2, p.1)) = id := by
    funext p
    rfl
  simp [inverted, listSource, stdMapping, _iteritems_mapping_or_iterable,
    List.map_map, hcomp]

/-- Witness for C8: double inversion of `{'a': 1, 'b': 2}` restores
`[('a', 1), ('b', 2)]`. -/
theorem inverted_involutive_witness :
    inverted (listSource (inverted (stdMapping [("a", (1 : Nat)), ("b", 2)]))) =
      [("a", 1), ("b", 2)] :=
  inverted_involutive [("a", (1 : Nat)), ("b", 2)] (by decide)

/-- C9: when the `__inverted__` attribute exists but is not callable,
`inverted` falls back to the default pair-swap path rather than raising or
invoking the attribute. -/
theorem inverted_attr_not_callable (arg : PySource K V)
    (h : arg.invAttr = .notCallable) :
    inverted arg =
      (_iteritems_mapping_or_iterable arg.data).map (fun p => (p.2, p.1)) := by
  simp [inverted, h]

/-- Witness for C9: a mapping carrying a non-callable `__inverted__`
attribute is still inverted by swapping its own items. -/
theorem inverted_attr_not_callable_witness :
    inverted (⟨.mapping [("a", (1 : Nat))], true, .notCallable⟩ :
        PySource String Nat) =
      [(1, "a")] :=
  (inverted_attr_not_callable _ rfl).trans rfl

/-- C10: `_iteritems_args_kw` performs no deduplication across segments:
if a key occurs both in the positional pairs and among the keyword pairs,
the output contains both occurrences, the positional one strictly before
the keyword one. -/
theorem iteritems_args_kw_no_dedup (arg : PySource K V) (kw : List (K × V))
    (k : K) (v₁ v₂ : V) (ht : arg.truthy = true)
    (h₁ : (k, v₁) ∈ _iteritems_mapping_or_iterable arg.data)
    (h₂ : (k, v₂) ∈ kw) :
    ∃ (l : List (K × V)) (i j : Nat),
      _iteritems_args_kw [arg] kw = Except.ok l ∧ i < j ∧
        l[i]? = some (k, v₁) ∧ l[j]? = some (k, v₂) := by
  obtain ⟨i, hi, hget₁⟩ := List.mem_iff_getElem.mp h₁
  obtain ⟨j, hj, hget₂⟩ := List.mem_iff_getElem.mp h₂
  refine ⟨_iteritems_mapping_or_iterable arg.data ++ kw, i,
    (_iteritems_mapping_or_iterable arg.data).length + j,
    args_kw_one_truthy arg kw ht, by omega, ?_, ?_⟩
  · rw [List.getElem?_append_left hi, List.getElem?_eq_getElem hi, hget₁]
  · rw [List.getElem?_append_right (by omega)]
    have hsub : (_iteritems_mapping_or_iterable arg.data).length + j -
        (_iteritems_mapping_or_iterable arg.data).length = j := by omega
    rw [hsub, List.getElem?_eq_getElem hj, hget₂]

/-- Witness for C10: combining `{'a': 1}` with keyword `a=2` yields both
`('a', 1)` and `('a', 2)`, with the positional pair first. -/
theorem iteritems_args_kw_no_dedup_witness :
    ∃ (l : List (String × Nat)) (i j : Nat),
      _iteritems_args_kw [stdMapping [("a", (1 : Nat))]] [("a", 2)] =
          Except.ok l ∧
        i < j ∧ l[i]? = some ("a", 1) ∧ l[j]? = some ("a", 2) :=
  iteritems_args_kw_no_dedup (stdMapping [("a", (1 : Nat))]) [("a", 2)]
    "a" 1 2 rfl (by decide) (by decide)

end Bidict
